import Mathlib

/-!
Verification of the Healthcare Cost Navigator core (shallow embedding).

This file embeds, in Lean 4, the SQL safety validator `_sql_is_safe`, the
provider query builder `_query_providers`, the NL-to-SQL response
post-processing of `generate_nl2sql` (all from `main.py`), and the ZIP
centroid resolver of `geo.py`.  Strings are modelled as `List Char`
(`String.data`); Python floats that are only carried, compared with zero,
or bound as parameters are modelled as `Rat`.
-/

set_option maxRecDepth 20000

namespace OutfoxHealth

/-- Word character in the sense of the regex class `\w = [a-zA-Z0-9_]`
(the validator only sees lowered ASCII text). -/
def isWordChar (c : Char) : Bool :=
  c.isAlpha || c.isDigit || c = '_'

/-- Whitespace in the sense of Python `str.strip()` / regex `\s`
restricted to the ASCII whitespace actually relevant to SQL text. -/
def pySpace (c : Char) : Bool :=
  c = ' ' || c = '\t' || c = '\n' || c = '\r' || c = '\x0b' || c = '\x0c'

/-- `isPrefixL p s` : `p` is a prefix of `s` (Boolean, on char lists). -/
def isPrefixL : List Char → List Char → Bool
  | [], _ => true
  | _ :: _, [] => false
  | a :: as, b :: bs => a = b && isPrefixL as bs

/-- `occursIn pat s` : `pat` occurs as a contiguous substring of `s`
(Python `pat in s`). -/
def occursIn (pat : List Char) : List Char → Bool
  | [] => isPrefixL pat []
  | c :: rest => isPrefixL pat (c :: rest) || occursIn pat rest

/-- Number of positions of `s` at which `pat` starts (counts overlapping
occurrences; used only with patterns that cannot overlap themselves). -/
def countOccs (pat : List Char) : List Char → Nat
  | [] => if isPrefixL pat [] then 1 else 0
  | c :: rest => (if isPrefixL pat (c :: rest) then 1 else 0) + countOccs pat rest

/-- Strip leading and trailing characters satisfying `f`
(Python `str.strip` family). -/
def stripBy (f : Char → Bool) (s : List Char) : List Char :=
  ((s.dropWhile f).reverse.dropWhile f).reverse

/-- The normalisation performed at the top of `_sql_is_safe`:
`sql.strip().strip(";").lower()`. -/
def sqlNormalize (sql : List Char) : List Char :=
  (stripBy (· = ';') (stripBy pySpace sql)).map Char.toLower

/-- `ALLOWED_TABLES` from `main.py`. -/
def ALLOWED_TABLES : List (List Char) :=
  ["providers".data, "drg_prices".data, "ratings".data, "zip_centroids".data]

/-- `FORBIDDEN_KEYWORDS` from `main.py`. -/
def FORBIDDEN_KEYWORDS : List (List Char) :=
  ["insert".data, "update".data, "delete".data, "drop".data, "alter".data,
   "create".data, "grant".data, "revoke".data, "truncate".data,
   "acos(".data, "radians(".data, "sin(".data, "cos(".data]

/-- Strip the literal `lit` from the front of `s`, if present. -/
def dropLit (lit s : List Char) : Option (List Char) :=
  if isPrefixL lit s then some (s.drop lit.length) else none

/-- Match `\s+` at the front of `s` (require at least one whitespace
character, consume the maximal run). -/
def dropWs1 : List Char → Option (List Char)
  | [] => none
  | c :: rest => if pySpace c then some (rest.dropWhile pySpace) else none

/-- Regex word boundary `\b` immediately before a word character, given
the previous character (`none` at the start of the text). -/
def boundaryBefore : Option Char → Bool
  | none => true
  | some p => !isWordChar p

/-- Match `kw\s+tbl\s+alias\b` at the front of `s` (the keyword has
already had its `\b` checked by the caller). -/
def bindTail (tbl al : List Char) (s : List Char) : Bool :=
  match dropWs1 s with
  | none => false
  | some s1 =>
    match dropLit tbl s1 with
    | none => false
    | some s2 =>
      match dropWs1 s2 with
      | none => false
      | some s3 =>
        match dropLit al s3 with
        | none => false
        | some s4 =>
          match s4 with
          | [] => true
          | c :: _ => !isWordChar c

/-- Scan for `re.search(r"\b(kw1|kw2|...)\s+tbl\s+alias\b", s)`:
does the pattern match anywhere in `s`?  `prev` is the character before
the current position. -/
def bindScanAux (kws : List (List Char)) (tbl al : List Char) :
    Option Char → List Char → Bool
  | _, [] => false
  | prev, c :: rest =>
    (boundaryBefore prev &&
      kws.any fun kw =>
        match dropLit kw (c :: rest) with
        | none => false
        | some s1 => bindTail tbl al s1) ||
    bindScanAux kws tbl al (some c) rest

/-- `re.search` over the whole text for an alias-binding pattern. -/
def bindScan (kws : List (List Char)) (tbl al : List Char) (s : List Char) : Bool :=
  bindScanAux kws tbl al none s

/-- First character class of a table name in the extraction regex:
`[a-z_]`. -/
def isNameFirst (c : Char) : Bool :=
  (('a' ≤ c && c ≤ 'z') : Bool) || c = '_'

/-- Continuation character class of a table name: `[a-z0-9_\.]`. -/
def isNameChar (c : Char) : Bool :=
  (('a' ≤ c && c ≤ 'z') : Bool) || c.isDigit || c = '_' || c = '.'

/-- Try to match `kw\s+([a-z_][a-z0-9_\.]+)` at the front of `s`,
returning the captured name and the remaining text. -/
def tryTableKw (kw : List Char) (s : List Char) : Option (List Char × List Char) :=
  match dropLit kw s with
  | none => none
  | some s1 =>
    match dropWs1 s1 with
    | none => none
    | some s2 =>
      match s2 with
      | [] => none
      | c :: rest =>
        if isNameFirst c then
          let run := rest.takeWhile isNameChar
          if run.isEmpty then none
          else some (c :: run, rest.dropWhile isNameChar)
        else none

/-- Try both alternatives (`from` first, then `join`) of the table
extraction regex at the current position. -/
def tryTableAt (prev : Option Char) (s : List Char) : Option (List Char × List Char) :=
  if boundaryBefore prev then
    match tryTableKw "from".data s with
    | some r => some r
    | none => tryTableKw "join".data s
  else none

/-- `re.findall` scan: collect the captured table names left to right,
resuming after each match (`fuel` bounds the recursion; each step
consumes at least one character, so `fuel = s.length` is exact). -/
def findTablesAux : Nat → Option Char → List Char → List (List Char)
  | 0, _, _ => []
  | fuel + 1, prev, s =>
    match s with
    | [] => []
    | c :: rest =>
      match tryTableAt prev (c :: rest) with
      | some (name, restAfter) =>
        name :: findTablesAux fuel name.getLast? restAfter
      | none => findTablesAux fuel (some c) rest

/-- All table names captured by
`re.findall(r"\bfrom\s+([a-z_][a-z0-9_\.]+)|\bjoin\s+([a-z_][a-z0-9_\.]+)", s)`. -/
def findTables (s : List Char) : List (List Char) :=
  findTablesAux s.length none s

/-- `t.split(".")[-1]` : the part of a dotted name after the last dot. -/
def lastComp (t : List Char) : List Char :=
  ((t.reverse.takeWhile (· ≠ '.')).reverse)

/-- Shallow embedding of `_sql_is_safe` from `main.py`. -/
def sqlIsSafe (sql : List Char) : Bool × String :=
  let s := sqlNormalize sql
  if ¬ isPrefixL "select".data s then
    (false, "Only SELECT statements are allowed")
  else if FORBIDDEN_KEYWORDS.any (fun kw => occursIn kw s) then
    (false, "Statement contains forbidden keywords")
  else if occursIn "dp.".data s && ! bindScan ["from".data, "join".data] "drg_prices".data "dp".data s then
    (false, "Missing FROM/JOIN for alias 'dp' (drg_prices dp)")
  else if occursIn "p.".data s && ! bindScan ["from".data, "join".data] "providers".data "p".data s then
    (false, "Missing FROM/JOIN for alias 'p' (providers p)")
  else if occursIn "r.".data s && ! bindScan ["join".data] "ratings".data "r".data s then
    (false, "Missing JOIN for alias 'r' (ratings r)")
  else
    match (findTables s).find? (fun t => ! ALLOWED_TABLES.contains (lastComp t)) with
    | some t => (false, ("Table '" ++ ⟨t⟩ ++ "' is not allowed" : String))
    | none => (true, "")

/-- A bound parameter value: the builder binds strings (`drg`, `drg_like`,
`zip`, `src_zip`) and one float (`radius_km`, modelled as `Rat`). -/
inductive PValue
  | str (s : String)
  | num (q : Rat)
deriving DecidableEq

/-- A parameterized query as assembled by `_query_providers`: the SQL text
plus the bound-parameter map (in insertion order). -/
structure BuiltQuery where
  sql : String
  params : List (String × PValue)
deriving DecidableEq

/-- Python truthiness of an optional string (`None` and `""` are falsy). -/
def pyTruthy : Option String → Bool
  | none => false
  | some s => s ≠ ""

/-- Python truthiness of `radius_km and radius_km > 0` for an optional
float: `None` and `0.0` are falsy, otherwise the comparison decides. -/
def pyRadiusTruthy : Option Rat → Bool
  | none => false
  | some r => decide (0 < r)

/-- `" AND ".join(conditions)`. -/
def joinAnd : List String → String
  | [] => ""
  | [c] => c
  | c :: rest => c ++ " AND " ++ joinAnd rest

/-- `distance_join` literal from `_query_providers`. -/
def distanceJoinSql : String :=
  "JOIN zip_centroids zc_src ON zc_src.zip = :src_zip JOIN zip_centroids zc_dest ON zc_dest.zip = p.zip "

/-- `distance_select` literal from `_query_providers`. -/
def distanceSelectSql : String :=
  ", haversine_km(zc_src.lat, zc_src.lng, zc_dest.lat, zc_dest.lng) AS distance_km"

/-- `distance_condition` literal from `_query_providers`. -/
def distanceCondSql : String :=
  " AND haversine_km(zc_src.lat, zc_src.lng, zc_dest.lat, zc_dest.lng) <= :radius_km"

/-- The f-string of `_query_providers` assembling the final SQL text. -/
def providerSelectSql (distSel distJoin whereSql distCond : String) : String :=
  "\n        SELECT\n            p.provider_id,\n            p.provider_name,\n            p.city,\n            p.state,\n            p.zip,\n            dp.ms_drg_code,\n            dp.ms_drg_description,\n            dp.total_discharges,\n            dp.avg_covered_charges,\n            dp.avg_total_payments,\n            dp.avg_medicare_payments,\n            r.rating"
  ++ distSel
  ++ "\n        FROM drg_prices dp\n        JOIN providers p ON p.provider_id = dp.provider_id\n        "
  ++ distJoin
  ++ "\n        LEFT JOIN ratings r ON r.provider_id = p.provider_id\n        WHERE "
  ++ whereSql ++ distCond
  ++ "\n        ORDER BY dp.avg_covered_charges ASC NULLS LAST\n        LIMIT 100\n    "

/-- Shallow embedding of `_query_providers` from `main.py` up to the point
where the assembled query would be executed.  The session is represented
by the oracle `centroidExists` answering the preliminary
`SELECT 1 FROM zip_centroids WHERE zip = :z` probe; an `HTTPException`
is the `.error (status, detail)` outcome. -/
def queryProviders (drg zip_code : Option String) (radius_km : Option Rat)
    (centroidExists : String → Bool) : Except (Nat × String) BuiltQuery :=
  if !pyTruthy drg && !pyTruthy zip_code then
    .error (400, "Please provide at least drg or zip")
  else
    let conditions :=
      (if pyTruthy drg then
        ["(dp.ms_drg_code = :drg OR dp.ms_drg_description ILIKE :drg_like)"] else [])
      ++ (if pyTruthy zip_code && !pyRadiusTruthy radius_km then ["p.zip = :zip"] else [])
    let params : List (String × PValue) :=
      (if pyTruthy drg then
        [("drg", .str (drg.getD "")), ("drg_like", .str ("%" ++ drg.getD "" ++ "%"))] else [])
      ++ (if pyTruthy zip_code && !pyRadiusTruthy radius_km then
        [("zip", .str (zip_code.getD ""))] else [])
    let whereSql := if conditions.isEmpty then "TRUE" else joinAnd conditions
    if pyTruthy zip_code && pyRadiusTruthy radius_km then
      if !(centroidExists (zip_code.getD "")) then
        .error (503, "zip centroid not available")
      else
        .ok { sql := providerSelectSql distanceSelectSql distanceJoinSql whereSql distanceCondSql,
              params := params ++ [("src_zip", .str (zip_code.getD "")),
                                   ("radius_km", .num (radius_km.getD 0))] }
    else
      .ok { sql := providerSelectSql "" "" whereSql "", params := params }

/-- The JSON object decoded from the completion response, as consumed by
`generate_nl2sql`: `obj.get(k, "")` makes every field optional. -/
structure NlObj where
  outcome : Option String
  sql : Option String
  guidance : Option String
  follow_up : Option String
deriving DecidableEq

/-- The dictionary returned by `generate_nl2sql`. -/
structure Nl2sqlResult where
  outcome : String
  sql : String
  guidance : String
  follow_up : String
deriving DecidableEq

/-- `str.lower()` (ASCII). -/
def lowerStr (s : String) : String :=
  ⟨s.data.map Char.toLower⟩

/-- The fixed fallback dictionary returned by `generate_nl2sql` when the
response cannot be parsed or has an invalid `outcome`. -/
def nl2sqlFallback : Nl2sqlResult where
  outcome := "guidance"
  sql := ""
  guidance := "I couldn’t understand the request. Try including a DRG code (or a procedure keyword), your ZIP code, and an optional distance. For example: ‘Cheapest hospitals for DRG 470 within 25 km of 10001’."
  follow_up := "Could you share a DRG code and your ZIP code?"

/-- Embedding of the response handling of `generate_nl2sql` (`main.py`
lines 172–198).  The external JSON decode `_extract_json_obj` is an
external call represented by its result: `.error` stands for the decode
raising, `.ok obj` for a successfully decoded object.  The
`raise ValueError("invalid outcome")` caught by the same `except` block
is the `else` branch. -/
def processNl2sql (parsed : Except String NlObj) : Nl2sqlResult :=
  match parsed with
  | .error _ => nl2sqlFallback
  | .ok obj =>
    let outcome := lowerStr (obj.outcome.getD "")
    if outcome = "sql" || outcome = "guidance" then
      { outcome := outcome, sql := obj.sql.getD "", guidance := obj.guidance.getD "",
        follow_up := obj.follow_up.getD "" }
    else nl2sqlFallback

/-- Digits to a natural number (`int(s)` on a digit run). -/
def digitsToNat (ds : List Char) : Nat :=
  ds.foldl (fun n c => n * 10 + (c.toNat - '0'.toNat)) 0

/-- Python `float(s)` restricted to optionally signed plain decimal
notation, the format of the GeoNames latitude/longitude columns; any
other input is the `ValueError` branch (`none`). -/
def parseDec? (s : List Char) : Option Rat :=
  let t := stripBy pySpace s
  let (neg, t1) : Bool × List Char :=
    match t with
    | '-' :: r => (true, r)
    | '+' :: r => (false, r)
    | r => (false, r)
  let ip := t1.takeWhile Char.isDigit
  let rest := t1.dropWhile Char.isDigit
  let val? : Option Rat :=
    match rest with
    | [] => if ip.isEmpty then none else some ((digitsToNat ip : Int) : Rat)
    | '.' :: fr =>
      let fp := fr.takeWhile Char.isDigit
      if !(fr.dropWhile Char.isDigit).isEmpty then none
      else if ip.isEmpty && fp.isEmpty then none
      else some ((digitsToNat ip : Rat) + (digitsToNat fp : Rat) / ((10 : Rat) ^ fp.length))
    | _ => none
  val?.map (fun v => if neg then -v else v)

/-- Python `s.split("\t")`: split on every tab, keeping empty fields. -/
def splitTabs : List Char → List (List Char)
  | [] => [[]]
  | c :: rest =>
    if c = '\t' then [] :: splitTabs rest
    else
      match splitTabs rest with
      | [] => [[c]]
      | f :: fs => (c :: f) :: fs

/-- One iteration of the line loop of `load_local_zip_db` (`geo.py`):
skip blank and `#` lines, lines with fewer than 6 tab-separated fields,
non-digit ZIPs and non-numeric coordinates; otherwise yield the entry
`(zip5, lat, lon)` with the ZIP at index 1, lat third from last and lon
second from last. -/
def parseZipLine (line : String) : Option (String × Rat × Rat) :=
  let s := stripBy pySpace line.data
  if s.isEmpty then none
  else if isPrefixL "#".data s then none
  else
    let parts := splitTabs s
    if parts.length < 6 then none
    else
      let zc := (stripBy pySpace ((parts.get? 1).getD [])).take 5
      if zc.isEmpty || !zc.all Char.isDigit then none
      else
        match parseDec? ((parts.reverse.get? 2).getD []),
              parseDec? ((parts.reverse.get? 1).getD []) with
        | some la, some lo => some (⟨zc⟩, la, lo)
        | _, _ => none

/-- The resolver state produced by `load_local_zip_db`: the in-memory
ZIP-to-centroid map (in file order, a later line for the same ZIP
overwrites an earlier one on lookup) and whether the missing-file warning
was logged. -/
structure ZipLoadResult where
  db : List (String × Rat × Rat)
  warnedMissing : Bool
deriving DecidableEq

/-- Shallow embedding of `load_local_zip_db` from `geo.py`: `none` is an
absent reference file (`os.path.exists` false), `some lines` its lines. -/
def loadLocalZipDb (file : Option (List String)) : ZipLoadResult :=
  match file with
  | none => { db := [], warnedMissing := true }
  | some lines => { db := lines.filterMap parseZipLine, warnedMissing := false }

/-- Dictionary lookup in the loaded map (`_LOCAL_ZIP_DB.get(z)`); the
last insertion for a key wins, as for a Python dict. -/
def dbGet (db : List (String × Rat × Rat)) (z : String) : Option (Rat × Rat) :=
  (db.reverse.find? (fun e => e.1 = z)).map (·.2)

/-- The input normalisation of `geocode_zip_batch_zipcodebase`: strip,
truncate to five characters, keep only all-digit results. -/
def normalizeZips (zips : List String) : List String :=
  zips.filterMap fun z =>
    let s := stripBy pySpace z.data
    if s.isEmpty then none
    else
      let s5 := s.take 5
      if !s5.isEmpty && s5.all Char.isDigit then some ⟨s5⟩ else none

/-- Keys of a Python dict built by insertion: first occurrence order,
duplicates dropped. -/
def dedupKeep : List String → List String
  | [] => []
  | z :: rest => z :: (dedupKeep rest).filter (· ≠ z)

/-- Shallow embedding of `geocode_zip_batch_zipcodebase` from `geo.py`:
the result maps every normalized input ZIP to the local-dataset centroid
(`none` when the dataset has no entry). -/
def geocodeZipBatch (file : Option (List String)) (zip_codes : List String) :
    List (String × Option (Rat × Rat)) :=
  let normalized := normalizeZips zip_codes
  if normalized.isEmpty then []
  else
    let db := (loadLocalZipDb file).db
    (dedupKeep normalized).map fun z => (z, dbGet db z)

/-- `result.get(zip_str)` on the batch result. -/
def lookupAssoc (m : List (String × Option (Rat × Rat))) (k : String) :
    Option (Option (Rat × Rat)) :=
  (m.find? (fun e => e.1 = k)).map (·.2)

/-- Shallow embedding of `geocode_zip_async` from `geo.py`. -/
def geocodeZipAsync (file : Option (List String)) (zip_code : String) :
    Option (String × Rat × Rat) :=
  let zipStr : String := ⟨(stripBy pySpace zip_code.data).take 5⟩
  match lookupAssoc (geocodeZipBatch file [zipStr]) zipStr with
  | some (some (la, lo)) => some (zipStr, la, lo)
  | _ => none

/-! ### Helper lemmas about substring search and the validator -/

theorem occursIn_of_isPrefixL {pat s : List Char} (h : isPrefixL pat s = true) :
    occursIn pat s = true := by
  cases s with
  | nil => simpa [occursIn] using h
  | cons c rest => simp [occursIn, h]

theorem occursIn_tail {c : Char} {pat s : List Char}
    (h : occursIn (c :: pat) s = true) : occursIn pat s = true := by
  induction s with
  | nil => simp [occursIn, isPrefixL] at h
  | cons x rest ih =>
    rw [occursIn, Bool.or_eq_true] at h
    rcases h with h | h
    · rw [isPrefixL, Bool.and_eq_true] at h
      rw [occursIn, Bool.or_eq_true]
      exact Or.inr (occursIn_of_isPrefixL h.2)
    · rw [occursIn, Bool.or_eq_true]
      exact Or.inr (ih h)

theorem occursIn_append_right {pat b : List Char} (a : List Char)
    (h : occursIn pat b = true) : occursIn pat (a ++ b) = true := by
  induction a with
  | nil => simpa using h
  | cons c as ih => simp [occursIn, ih]

theorem sqlIsSafe_false_of_kw {s kw : List Char} (hkw : kw ∈ FORBIDDEN_KEYWORDS)
    (h : occursIn kw (sqlNormalize s) = true) : (sqlIsSafe s).1 = false := by
  have hany : FORBIDDEN_KEYWORDS.any (fun k => occursIn k (sqlNormalize s)) = true :=
    List.any_eq_true.mpr ⟨kw, hkw, h⟩
  unfold sqlIsSafe
  dsimp only
  repeat' split
  all_goals simp_all

theorem sqlIsSafe_false_of_dp {s : List Char}
    (h1 : occursIn "dp.".data (sqlNormalize s) = true)
    (h2 : bindScan ["from".data, "join".data] "drg_prices".data "dp".data (sqlNormalize s) = false) :
    (sqlIsSafe s).1 = false := by
  unfold sqlIsSafe
  dsimp only
  repeat' split
  all_goals simp_all

theorem sqlIsSafe_false_of_p {s : List Char}
    (h1 : occursIn "p.".data (sqlNormalize s) = true)
    (h2 : bindScan ["from".data, "join".data] "providers".data "p".data (sqlNormalize s) = false) :
    (sqlIsSafe s).1 = false := by
  unfold sqlIsSafe
  dsimp only
  repeat' split
  all_goals simp_all

theorem sqlIsSafe_false_of_r {s : List Char}
    (h1 : occursIn "r.".data (sqlNormalize s) = true)
    (h2 : bindScan ["join".data] "ratings".data "r".data (sqlNormalize s) = false) :
    (sqlIsSafe s).1 = false := by
  unfold sqlIsSafe
  dsimp only
  repeat' split
  all_goals simp_all

theorem sqlIsSafe_false_of_table {s t : List Char}
    (ht : t ∈ findTables (sqlNormalize s))
    (hbad : ALLOWED_TABLES.contains (lastComp t) = false) :
    (sqlIsSafe s).1 = false := by
  unfold sqlIsSafe
  dsimp only
  repeat' split
  all_goals simp_all [List.find?_eq_none]

/-! ### Claims about the SQL safety validator -/

/-- C2 (counterexample): the multi-statement text `"select 1; select 2"`,
in which a semicolon occurs between other characters, is accepted by
`_sql_is_safe` — the validator only strips leading and trailing
semicolons and never rejects an interior statement separator. -/
theorem sql_multistatement_accepted :
    occursIn "1; s".data "select 1; select 2".data = true ∧
    sqlIsSafe "select 1; select 2".data = (true, "") := by
  constructor
  · decide
  · decide

/-- C2 (amended): `_sql_is_safe` strips only leading and trailing
semicolons; an interior statement separator is not itself grounds for
rejection.  Multi-statement text is rejected exactly when one of the
other checks fires: a second statement made of a read-only query passes
(`"select 1; select 2"`), while a second statement containing a mutating
keyword is caught by the forbidden-keyword scan
(`"select 1; insert into t values (1)"`); leading/trailing semicolons
are discarded before the SELECT check (`";;select 1;"`). -/
theorem sql_semicolon_handling :
    sqlIsSafe "select 1; select 2".data = (true, "") ∧
    sqlIsSafe "select 1; insert into t values (1)".data =
      (false, "Statement contains forbidden keywords") ∧
    sqlIsSafe ";;select 1;".data = (true, "") := by
  refine ⟨by decide, by decide, by decide⟩

/-- C3 (counterexample): `"select * from x"` names the table `x` in its
FROM clause, `x` is not in the allow-list, yet `_sql_is_safe` accepts the
query: the table-extraction regex `[a-z_][a-z0-9_\.]+` only matches names
of length at least two, so single-character table names escape the
allow-list check. -/
theorem sql_single_char_table_accepted :
    occursIn "from x".data (sqlNormalize "select * from x".data) = true ∧
    ("x".data ∈ ALLOWED_TABLES → False) ∧
    sqlIsSafe "select * from x".data = (true, "") := by
  refine ⟨by decide, by decide, by decide⟩

/-- C3 (amended): `_sql_is_safe` rejects every query containing a
mutating keyword (case-insensitive, after normalisation), every query
whose FROM/JOIN table scan captures a name whose final dot-component is
outside `{providers, drg_prices, ratings, zip_centroids}` — the scan only
captures names of length at least two starting with a letter or
underscore, so single-character table names escape it — and every query
using the `dp.`/`p.`/`r.` alias prefix without its matching FROM/JOIN
binding clause; and it accepts a minimal correctly-aliased
single-statement SELECT over an allow-listed table. -/
theorem sql_validator_rules :
    (∀ s kw : List Char, kw ∈ FORBIDDEN_KEYWORDS →
      occursIn kw (sqlNormalize s) = true → (sqlIsSafe s).1 = false) ∧
    (∀ s t : List Char, t ∈ findTables (sqlNormalize s) →
      ALLOWED_TABLES.contains (lastComp t) = false → (sqlIsSafe s).1 = false) ∧
    (∀ s : List Char,
      (occursIn "dp.".data (sqlNormalize s) = true →
        bindScan ["from".data, "join".data] "drg_prices".data "dp".data (sqlNormalize s) = false →
        (sqlIsSafe s).1 = false) ∧
      (occursIn "p.".data (sqlNormalize s) = true →
        bindScan ["from".data, "join".data] "providers".data "p".data (sqlNormalize s) = false →
        (sqlIsSafe s).1 = false) ∧
      (occursIn "r.".data (sqlNormalize s) = true →
        bindScan ["join".data] "ratings".data "r".data (sqlNormalize s) = false →
        (sqlIsSafe s).1 = false)) ∧
    sqlIsSafe "select p.provider_id from providers p".data = (true, "") := by
  refine ⟨?_, ?_, ?_, by decide⟩
  · intro s kw hkw h
    exact sqlIsSafe_false_of_kw hkw h
  · intro s t ht hbad
    exact sqlIsSafe_false_of_table ht hbad
  · intro s
    exact ⟨fun h1 h2 => sqlIsSafe_false_of_dp h1 h2,
           fun h1 h2 => sqlIsSafe_false_of_p h1 h2,
           fun h1 h2 => sqlIsSafe_false_of_r h1 h2⟩

/-- Witness for `sql_validator_rules` at concrete inputs: a query holding
the mutating keyword `drop` is rejected, `"select * from users"` (table
`users` not allow-listed) is rejected, and an unbound `r.` alias is
rejected. -/
theorem sql_validator_rules_witness :
    (sqlIsSafe "select 1 drop".data).1 = false ∧
    (sqlIsSafe "select * from users".data).1 = false ∧
    (sqlIsSafe "select r.rating from providers p".data).1 = false := by
  refine ⟨sql_validator_rules.1 _ "drop".data (by decide) (by decide),
          sql_validator_rules.2.1 _ "users".data (by decide) (by decide),
          (sql_validator_rules.2.2.1 "select r.rating from providers p".data).2.2
            (by decide) (by decide)⟩

/-- C10: because the substring `"dp."` contains the substring `"p."`,
every query accepted by `_sql_is_safe` that references the `dp.` alias
prefix also satisfies the `providers p` binding-clause check; in
particular the single-table query
`"select dp.ms_drg_code from drg_prices dp"`, which binds `drg_prices`
to its canonical alias but has no `providers` binding, is rejected with
the `p`-alias reason. -/
theorem dp_alias_requires_providers :
    (∀ s : List Char, (sqlIsSafe s).1 = true →
      occursIn "dp.".data (sqlNormalize s) = true →
      bindScan ["from".data, "join".data] "providers".data "p".data (sqlNormalize s) = true) ∧
    sqlIsSafe "select dp.ms_drg_code from drg_prices dp".data =
      (false, "Missing FROM/JOIN for alias 'p' (providers p)") := by
  constructor
  · intro s hok hdp
    have hp : occursIn "p.".data (sqlNormalize s) = true := occursIn_tail hdp
    cases hb : bindScan ["from".data, "join".data] "providers".data "p".data (sqlNormalize s)
    · exfalso
      have hf := sqlIsSafe_false_of_p hp hb
      rw [hok] at hf
      exact Bool.noConfusion hf
    · rfl
  · decide

/-- Witness for `dp_alias_requires_providers`: the accepted query
`"select dp.ms_drg_code from drg_prices dp join providers p on p.provider_id = dp.provider_id"`
references `dp.` and indeed carries the `providers p` binding. -/
theorem dp_alias_requires_providers_witness :
    bindScan ["from".data, "join".data] "providers".data "p".data
      (sqlNormalize "select dp.ms_drg_code from drg_prices dp join providers p on p.provider_id = dp.provider_id".data) = true :=
  dp_alias_requires_providers.1
    "select dp.ms_drg_code from drg_prices dp join providers p on p.provider_id = dp.provider_id".data
    (by decide) (by decide)

/-! ### Claims about the provider query builder -/

/-- The SQL text of a successfully built query (`""` on failure). -/
def builtSql : Except (Nat × String) BuiltQuery → String
  | .ok q => q.sql
  | .error _ => ""

/-- The parameter map of a successfully built query (`[]` on failure). -/
def builtParams : Except (Nat × String) BuiltQuery → List (String × PValue)
  | .ok q => q.params
  | .error _ => []

theorem strData_append (a b : String) : (a ++ b).data = a.data ++ b.data := by
  cases a
  cases b
  rfl

theorem providerSelectSql_contains (a b w d : String) :
    occursIn "ORDER BY dp.avg_covered_charges ASC NULLS LAST".data
      (providerSelectSql a b w d).data = true ∧
    occursIn "LIMIT 100".data (providerSelectSql a b w d).data = true := by
  unfold providerSelectSql
  rw [strData_append]
  exact ⟨occursIn_append_right _ (by decide), occursIn_append_right _ (by decide)⟩

/-- C6: with both `drg` and `zip` absent, the provider query path fails
with HTTP 400 before any storage access: `_query_providers` raises
immediately, for every `radius_km` and every storage state, and no query
is assembled. -/
theorem missing_filters_400 (r : Option Rat) (c : String → Bool) :
    queryProviders none none r c = .error (400, "Please provide at least drg or zip") := rfl

/-- C4: for a radius search (`zip` present, `radius_km > 0`) whose source
ZIP has no centroid row, `_query_providers` fails with HTTP 503
(`zip centroid not available`) and never assembles the main provider
query, for every `drg` value. -/
theorem centroid_unavailable_503 (drg : Option String) (z : String) (hz : z ≠ "")
    (r : Rat) (hr : 0 < r) (c : String → Bool) (hc : c z = false) :
    queryProviders drg (some z) (some r) c = .error (503, "zip centroid not available") := by
  have ht : pyTruthy (some z) = true := by simp [pyTruthy, hz]
  have hrt : pyRadiusTruthy (some r) = true := by simp [pyRadiusTruthy, hr]
  simp [queryProviders, ht, hrt, hc]

/-- Witness for `centroid_unavailable_503`: DRG `470`, ZIP `99999`,
radius 10 km, against a store with no centroid rows. -/
theorem centroid_unavailable_503_witness :
    queryProviders (some "470") (some "99999") (some 10) (fun _ => false) =
      .error (503, "zip centroid not available") :=
  centroid_unavailable_503 (some "470") "99999" (by decide) 10 (by norm_num)
    (fun _ => false) rfl

/-- C1: for every non-empty `drg` filter value, a successfully built
query binds the raw string twice — as parameter `drg` and wrapped in `%`
as parameter `drg_like` — and the emitted query text is identical for
any two `drg` values (the filter text is never interpolated into the
query string). -/
theorem drg_param_binding (d d2 : String) (hd : d ≠ "") (hd2 : d2 ≠ "")
    (z : Option String) (r : Option Rat) (c : String → Bool) :
    ((queryProviders (some d) z r c).isOk = true →
      ("drg", PValue.str d) ∈ builtParams (queryProviders (some d) z r c) ∧
      ("drg_like", PValue.str ("%" ++ d ++ "%")) ∈ builtParams (queryProviders (some d) z r c)) ∧
    Except.map (fun q => q.sql) (queryProviders (some d) z r c) =
      Except.map (fun q => q.sql) (queryProviders (some d2) z r c) := by
  have ht : pyTruthy (some d) = true := by simp [pyTruthy, hd]
  have ht2 : pyTruthy (some d2) = true := by simp [pyTruthy, hd2]
  cases hz : pyTruthy z <;> cases hr : pyRadiusTruthy r <;> cases hc : c (z.getD "") <;>
    simp [queryProviders, builtParams, ht, ht2, hz, hr, hc, Except.map, Except.isOk,
      Except.toBool]

/-- Witness for `drg_param_binding`: the adversarial filter value
`"470; drop table providers --"` is bound as parameters only, and the
query text equals the one built for the plain value `"470"`. -/
theorem drg_param_binding_witness :
    ("drg", PValue.str "470; drop table providers --") ∈
      builtParams (queryProviders (some "470; drop table providers --") (some "10001") none (fun _ => true)) ∧
    ("drg_like", PValue.str "%470; drop table providers --%") ∈
      builtParams (queryProviders (some "470; drop table providers --") (some "10001") none (fun _ => true)) ∧
    Except.map (fun q => q.sql)
        (queryProviders (some "470; drop table providers --") (some "10001") none (fun _ => true)) =
      Except.map (fun q => q.sql)
        (queryProviders (some "470") (some "10001") none (fun _ => true)) := by
  have h := drg_param_binding "470; drop table providers --" "470" (by decide) (by decide)
    (some "10001") none (fun _ => true)
  exact ⟨(h.1 rfl).1, (h.1 rfl).2, h.2⟩

/-- C7: every query that `_query_providers` successfully builds — any
combination of `drg`/`zip`/`radius_km` filters — orders by ascending
`avg_covered_charges` with nulls last and carries a `LIMIT 100` clause. -/
theorem order_and_limit (drg z : Option String) (r : Option Rat) (c : String → Bool)
    (h : (queryProviders drg z r c).isOk = true) :
    occursIn "ORDER BY dp.avg_covered_charges ASC NULLS LAST".data
      (builtSql (queryProviders drg z r c)).data = true ∧
    occursIn "LIMIT 100".data (builtSql (queryProviders drg z r c)).data = true := by
  cases hd : pyTruthy drg <;> cases hz : pyTruthy z <;> cases hr : pyRadiusTruthy r <;>
    cases hc : c (z.getD "") <;>
      simp_all [queryProviders, builtSql, Except.isOk, Except.toBool] <;>
      exact providerSelectSql_contains _ _ _ _

/-- Witness for `order_and_limit`: the drg-only query for `"470"`. -/
theorem order_and_limit_witness :
    occursIn "ORDER BY dp.avg_covered_charges ASC NULLS LAST".data
      (builtSql (queryProviders (some "470") none none (fun _ => true))).data = true ∧
    occursIn "LIMIT 100".data
      (builtSql (queryProviders (some "470") none none (fun _ => true))).data = true :=
  order_and_limit (some "470") none none (fun _ => true) rfl

/-- C5: for every radius search with a known source centroid (`zip`
present, `radius_km > 0`, centroid probe succeeds), the built query
suppresses the exact-ZIP equality filter (no `p.zip = :zip` text and no
`zip` parameter), joins `zip_centroids` exactly twice under the distinct
aliases `zc_src` and `zc_dest`, filters on `haversine_km(...) <=
:radius_km`, selects the computed distance as an extra output column,
and binds the source ZIP and radius as parameters. -/
theorem radius_query_shape (drg : Option String) (z : String) (hz : z ≠ "")
    (r : Rat) (hr : 0 < r) (c : String → Bool) (hc : c z = true) :
    (queryProviders drg (some z) (some r) c).isOk = true ∧
    countOccs "JOIN zip_centroids".data
      (builtSql (queryProviders drg (some z) (some r) c)).data = 2 ∧
    occursIn "JOIN zip_centroids zc_src ON zc_src.zip = :src_zip".data
      (builtSql (queryProviders drg (some z) (some r) c)).data = true ∧
    occursIn "JOIN zip_centroids zc_dest ON zc_dest.zip = p.zip".data
      (builtSql (queryProviders drg (some z) (some r) c)).data = true ∧
    occursIn "haversine_km(zc_src.lat, zc_src.lng, zc_dest.lat, zc_dest.lng) <= :radius_km".data
      (builtSql (queryProviders drg (some z) (some r) c)).data = true ∧
    occursIn ", haversine_km(zc_src.lat, zc_src.lng, zc_dest.lat, zc_dest.lng) AS distance_km".data
      (builtSql (queryProviders drg (some z) (some r) c)).data = true ∧
    occursIn "p.zip = :zip".data
      (builtSql (queryProviders drg (some z) (some r) c)).data = false ∧
    ("src_zip", PValue.str z) ∈ builtParams (queryProviders drg (some z) (some r) c) ∧
    ("radius_km", PValue.num r) ∈ builtParams (queryProviders drg (some z) (some r) c) ∧
    (∀ v, ("zip", v) ∉ builtParams (queryProviders drg (some z) (some r) c)) := by
  have ht : pyTruthy (some z) = true := by simp [pyTruthy, hz]
  have hrt : pyRadiusTruthy (some r) = true := by simp [pyRadiusTruthy, hr]
  cases hd : pyTruthy drg
  · have hq : queryProviders drg (some z) (some r) c =
        .ok { sql := providerSelectSql distanceSelectSql distanceJoinSql "TRUE" distanceCondSql,
              params := [("src_zip", PValue.str z), ("radius_km", PValue.num r)] } := by
      simp [queryProviders, ht, hrt, hd, hc]
    rw [hq]
    dsimp only [builtSql]
    refine ⟨rfl, by decide, by decide, by decide, by decide, by decide, by decide, ?_, ?_, ?_⟩
    · simp [builtParams]
    · simp [builtParams]
    · intro v
      simp [builtParams]
  · have hq : queryProviders drg (some z) (some r) c =
        .ok { sql := providerSelectSql distanceSelectSql distanceJoinSql
                "(dp.ms_drg_code = :drg OR dp.ms_drg_description ILIKE :drg_like)" distanceCondSql,
              params := [("drg", PValue.str (drg.getD "")),
                         ("drg_like", PValue.str ("%" ++ drg.getD "" ++ "%")),
                         ("src_zip", PValue.str z), ("radius_km", PValue.num r)] } := by
      simp [queryProviders, ht, hrt, hd, hc, joinAnd]
    rw [hq]
    dsimp only [builtSql]
    refine ⟨rfl, by decide, by decide, by decide, by decide, by decide, by decide, ?_, ?_, ?_⟩
    · simp [builtParams]
    · simp [builtParams]
    · intro v
      simp [builtParams]

/-- Witness for `radius_query_shape`: ZIP `10001`, radius 25 km, no DRG,
against a store that has the source centroid. -/
theorem radius_query_shape_witness :
    (queryProviders none (some "10001") (some 25) (fun _ => true)).isOk = true ∧
    countOccs "JOIN zip_centroids".data
      (builtSql (queryProviders none (some "10001") (some 25) (fun _ => true))).data = 2 ∧
    occursIn "JOIN zip_centroids zc_src ON zc_src.zip = :src_zip".data
      (builtSql (queryProviders none (some "10001") (some 25) (fun _ => true))).data = true ∧
    occursIn "JOIN zip_centroids zc_dest ON zc_dest.zip = p.zip".data
      (builtSql (queryProviders none (some "10001") (some 25) (fun _ => true))).data = true ∧
    occursIn "haversine_km(zc_src.lat, zc_src.lng, zc_dest.lat, zc_dest.lng) <= :radius_km".data
      (builtSql (queryProviders none (some "10001") (some 25) (fun _ => true))).data = true ∧
    occursIn ", haversine_km(zc_src.lat, zc_src.lng, zc_dest.lat, zc_dest.lng) AS distance_km".data
      (builtSql (queryProviders none (some "10001") (some 25) (fun _ => true))).data = true ∧
    occursIn "p.zip = :zip".data
      (builtSql (queryProviders none (some "10001") (some 25) (fun _ => true))).data = false ∧
    ("src_zip", PValue.str "10001") ∈
      builtParams (queryProviders none (some "10001") (some 25) (fun _ => true)) ∧
    ("radius_km", PValue.num 25) ∈
      builtParams (queryProviders none (some "10001") (some 25) (fun _ => true)) := by
  have h := radius_query_shape none "10001" (by decide) 25 (by norm_num) (fun _ => true) rfl
  exact ⟨h.1, h.2.1, h.2.2.1, h.2.2.2.1, h.2.2.2.2.1, h.2.2.2.2.2.1, h.2.2.2.2.2.2.1,
         h.2.2.2.2.2.2.2.1, h.2.2.2.2.2.2.2.2.1⟩

/-! ### Claim about the NL-to-SQL response handling -/

/-- C8 (counterexample): the claim as stated is false — the outcome
value `"SQL"` is neither `"sql"` nor `"guidance"`, yet the response is
not downgraded to the fallback: `generate_nl2sql` lowercases the field
(`str(obj.get("outcome", "")).lower()`, `main.py` line 176) before
validating it, so the response is returned as a `sql` outcome. -/
theorem nl2sql_uppercase_outcome_not_fallback :
    ("SQL" ≠ "sql" ∧ "SQL" ≠ "guidance") ∧
    processNl2sql (.ok ⟨some "SQL", some "select 1", some "g", some "f"⟩) ≠ nl2sqlFallback ∧
    (processNl2sql (.ok ⟨some "SQL", some "select 1", some "g", some "f"⟩)).outcome = "sql" := by
  refine ⟨⟨by decide, by decide⟩, by decide, by decide⟩

/-- C8 (amended): whenever the completion response cannot be decoded to
the expected JSON object, or its `outcome` field is absent or its
**lowercased** value is neither `"sql"` nor `"guidance"`, `generate_nl2sql`
returns the fixed guidance fallback (with its fixed follow-up) instead
of propagating the parse error — outcome values differing from `"sql"`
or `"guidance"` only by case are accepted after lowercasing; and in
every case the returned `outcome` is one of the two valid values. -/
theorem nl2sql_malformed_fallback :
    (∀ e : String, processNl2sql (.error e) = nl2sqlFallback) ∧
    (∀ obj : NlObj, lowerStr (obj.outcome.getD "") ≠ "sql" →
      lowerStr (obj.outcome.getD "") ≠ "guidance" →
      processNl2sql (.ok obj) = nl2sqlFallback) ∧
    nl2sqlFallback.outcome = "guidance" ∧
    nl2sqlFallback.follow_up = "Could you share a DRG code and your ZIP code?" ∧
    (∀ p : Except String NlObj,
      (processNl2sql p).outcome = "sql" ∨ (processNl2sql p).outcome = "guidance") := by
  refine ⟨fun e => rfl, ?_, rfl, rfl, ?_⟩
  · intro obj h1 h2
    simp [processNl2sql, h1, h2]
  · intro p
    cases p with
    | error e => exact Or.inr rfl
    | ok obj =>
      unfold processNl2sql
      dsimp only
      split
      · next hcond =>
        have hcond' : lowerStr (obj.outcome.getD "") = "sql" ∨
            lowerStr (obj.outcome.getD "") = "guidance" := by simpa using hcond
        rcases hcond' with h | h
        · exact Or.inl h
        · exact Or.inr h
      · exact Or.inr rfl

/-- Witness for `nl2sql_malformed_fallback`: a decode failure and an
object with the invalid outcome `"maybe"` both yield the fallback. -/
theorem nl2sql_malformed_fallback_witness :
    processNl2sql (.error "boom") = nl2sqlFallback ∧
    processNl2sql (.ok ⟨some "maybe", some "select 1", some "g", some "f"⟩) = nl2sqlFallback :=
  ⟨nl2sql_malformed_fallback.1 "boom",
   nl2sql_malformed_fallback.2.1 ⟨some "maybe", some "select 1", some "g", some "f"⟩
     (by decide) (by decide)⟩

/-! ### Claim about the ZIP centroid resolver -/

theorem geocodeZipBatch_none_snd (zips : List String) (p : String × Option (Rat × Rat))
    (hp : p ∈ geocodeZipBatch none zips) : p.2 = none := by
  unfold geocodeZipBatch at hp
  dsimp only [loadLocalZipDb] at hp
  split at hp
  · cases hp
  · rcases List.mem_map.mp hp with ⟨a, _, rfl⟩
    rfl

/-- C9: with the ZIP reference file absent, `load_local_zip_db` logs the
missing-file warning and leaves the in-memory map empty, every batch
lookup resolves each queried ZIP to an absent result, and every single
lookup returns `None` — no exception escapes (the embedding is total). -/
theorem missing_zip_file_absent_lookups :
    (loadLocalZipDb none).db = [] ∧
    (loadLocalZipDb none).warnedMissing = true ∧
    (∀ zips : List String, ∀ p ∈ geocodeZipBatch none zips, p.2 = none) ∧
    (∀ z : String, geocodeZipAsync none z = none) := by
  refine ⟨rfl, rfl, geocodeZipBatch_none_snd, ?_⟩
  intro z
  unfold geocodeZipAsync
  dsimp only
  rcases hl : lookupAssoc
      (geocodeZipBatch none [⟨(stripBy pySpace z.data).take 5⟩])
      ⟨(stripBy pySpace z.data).take 5⟩ with _ | v
  · rfl
  · rcases v with _ | ⟨la, lo⟩
    · rfl
    · exfalso
      unfold lookupAssoc at hl
      rcases Option.map_eq_some'.mp hl with ⟨q, hfind, hq⟩
      have := geocodeZipBatch_none_snd _ q (List.mem_of_find?_eq_some hfind)
      rw [this] at hq
      exact Option.noConfusion hq

/-- Witness for `missing_zip_file_absent_lookups`: the batch result for
`["10001"]` maps `10001` to `none`, and the single lookup for `10001`
returns `none`. -/
theorem missing_zip_file_absent_lookups_witness :
    (("10001", (none : Option (Rat × Rat))).2 = none) ∧
    geocodeZipAsync none "10001" = none :=
  ⟨missing_zip_file_absent_lookups.2.2.1 ["10001"] ("10001", none) (by decide),
   missing_zip_file_absent_lookups.2.2.2 "10001"⟩

end OutfoxHealth
